import Mathlib

/-!
Formal model of the gridded-field / wind-advection engine in `src/rta/wind.py`.

Python floats are modelled by `ℚ` (and by `ℝ` where the source applies
trigonometric functions), fallible operations return `Except PyError`,
and the shape-keyed k-d-tree cache together with array object identity is
modelled by explicit state passing.  Every definition is translated from
the source file; the few places where the source's *intended* behaviour
(as described by its own comments and docstrings) diverges from what it
actually does are modelled as the code actually behaves, with the
divergence noted in the accompanying doc comment.
-/

/-- Exception classes that can arise in the modelled code paths.
The first five are Python built-ins actually raised by the source.
`invalidGridError` and `shapeMismatchError` are the exception classes named
by the specification's error taxonomy; the source file defines neither
class, and they are included here only so that statements about them can be
written down and compared with what the code raises. -/
inductive PyError where
  | attributeError
  | valueError
  | typeError
  | zeroDivisionError
  | unboundLocalError
  | invalidGridError
  | shapeMismatchError
  deriving DecidableEq, Repr

/-- Model of `numpy.repeat(xs, n)` for a 1-D array: each element is repeated
`n` times in place (wind.py line 26). -/
def np_repeat (xs : List ℚ) (n : Nat) : List ℚ :=
  xs.flatMap (fun x => List.replicate n x)

/-- Model of `numpy.tile(xs, n)` for a 1-D array: the whole array is
concatenated `n` times (wind.py line 27). -/
def np_tile (xs : List ℚ) (n : Nat) : List ℚ :=
  (List.replicate n xs).flatten

/-- Grid of sample points (wind.py lines 10-14): the raveled latitude array,
the raveled longitude array, and the logical 2-D shape (rows, cols). -/
structure Grid where
  lats : List ℚ
  lons : List ℚ
  shape : Nat × Nat
  deriving DecidableEq, Repr

/-- Model of `Grid.from_unique_arrays` (wind.py lines 24-28):
`all_lats = numpy.repeat(lats, len(lons))`, `all_lons = numpy.tile(lons, len(lats))`,
shape `(len(lats), len(lons))`. -/
def Grid.from_unique_arrays (lats lons : List ℚ) : Grid :=
  { lats := np_repeat lats lons.length
    lons := np_tile lons lats.length
    shape := (lats.length, lons.length) }

/-- Length of `numpy.arange(start, stop, step)` for a nonzero step:
`ceil((stop - start) / step)`, clamped at zero. -/
def arange_len (start stop step : ℚ) : Nat :=
  (Int.ceil ((stop - start) / step)).toNat

/-- Values of `numpy.arange(start, stop, step)` for a nonzero step. -/
def arange_list (start stop step : ℚ) : List ℚ :=
  (List.range (arange_len start stop step)).map (fun i => start + (i : ℚ) * step)

/-- Model of `numpy.arange(start, stop, step)` as used on wind.py lines 32-33.
NumPy raises `ZeroDivisionError` when the step is zero (its internal length
computation divides by the step); otherwise it produces the half-open
arithmetic range. -/
def numpy_arange (start stop step : ℚ) : Except PyError (List ℚ) :=
  if step = 0 then Except.error PyError.zeroDivisionError
  else Except.ok (arange_list start stop step)

/-- Model of `Grid.from_ranges` (wind.py lines 30-34): build both axes with
`numpy.arange` and delegate to `from_unique_arrays`.  The source performs no
validation of its own, so a zero step surfaces NumPy's `ZeroDivisionError`. -/
def Grid.from_ranges (lat_min lat_max lat_step lon_min lon_max lon_step : ℚ) :
    Except PyError Grid :=
  match numpy_arange lat_min lat_max lat_step with
  | Except.error e => Except.error e
  | Except.ok lats =>
    match numpy_arange lon_min lon_max lon_step with
    | Except.error e => Except.error e
    | Except.ok lons => Except.ok (Grid.from_unique_arrays lats lons)

/-- Model of the `Grid.pairs` property (wind.py lines 20-22):
`numpy.dstack([lats, lons])` pairs the two raveled coordinate channels, so as
a point sequence it is the elementwise zip.  (The actual ndarray has shape
`(1, N, 2)`; the leading singleton axis is immaterial to every claim below
because `resample_to_grid` fails before the query result shape could matter.) -/
def Grid.pairsList (g : Grid) : List (ℚ × ℚ) :=
  g.lats.zip g.lons

/-- A 2-D field of scalar values bound to a grid (wind.py lines 37-47).
`values` is kept raveled; `GriddedField.make` below models the constructor's
reshape-or-fail behaviour. -/
structure GriddedField where
  grid : Grid
  values : List ℚ
  deriving DecidableEq, Repr

/-- Model of `GriddedField.__init__` (wind.py lines 38-45): the values array
is reshaped to the grid's shape, which succeeds exactly when the element
counts agree; numpy's `reshape` raises `ValueError` otherwise. -/
def GriddedField.make (values : List ℚ) (grid : Grid) : Except PyError GriddedField :=
  if values.length = grid.shape.1 * grid.shape.2 then
    Except.ok { grid := grid, values := values }
  else
    Except.error PyError.valueError

/-- The field's shape, mirroring `self.shape = grid.shape` (wind.py line 45). -/
def GriddedField.shape (f : GriddedField) : Nat × Nat :=
  f.grid.shape

/-- The field's raveled latitudes, mirroring `self.lats = grid.lats` (line 43). -/
def GriddedField.lats (f : GriddedField) : List ℚ :=
  f.grid.lats

/-- The field's raveled longitudes, mirroring `self.lons = grid.lons` (line 44). -/
def GriddedField.lons (f : GriddedField) : List ℚ :=
  f.grid.lons

/-- A built `scipy.spatial.cKDTree`: a static nearest-neighbour structure
over the point list it was constructed from (wind.py line 63,
`cKDTree(numpy.dstack([self.lats, self.lons])[0])`). -/
structure KDTree where
  points : List (ℚ × ℚ)
  deriving DecidableEq, Repr

/-- Building the k-d tree from a field's raveled coordinate pairs
(wind.py line 63). -/
def build_kd_tree (f : GriddedField) : KDTree :=
  { points := f.grid.lats.zip f.grid.lons }

/-- Squared planar Euclidean distance on raw (lat, lon) pairs; the source
applies no great-circle correction. -/
def sq_dist (a b : ℚ × ℚ) : ℚ :=
  (a.1 - b.1) ^ 2 + (a.2 - b.2) ^ 2

/-- Flat index of the stored point nearest to the query point, breaking
ties toward the lower index (scipy returns an arbitrary nearest point on a
tie; no claim below depends on tie-breaking). -/
def nearest_flat_idx (pts : List (ℚ × ℚ)) (q : ℚ × ℚ) : Nat :=
  match pts with
  | [] => 0
  | p :: rest =>
    (rest.enum.foldl
      (fun best ip =>
        if sq_dist ip.2 q < best.2 then (ip.1 + 1, sq_dist ip.2 q) else best)
      (0, sq_dist p q)).1

/-- Argument shapes accepted by `cKDTree.query`: one bare (lat, lon) pair, or
a sequence of pairs. -/
inductive QueryIn where
  | single : ℚ × ℚ → QueryIn
  | many : List (ℚ × ℚ) → QueryIn
  deriving DecidableEq, Repr

/-- Result of `cKDTree.query(...)[1]`: a NumPy integer scalar for a bare
single-point query, and a NumPy integer array for a sequence of query
points.  It is never a Python `int`. -/
inductive QueryOut where
  | npScalar : Nat → QueryOut
  | npArray : List Nat → QueryOut
  deriving DecidableEq, Repr

/-- Model of `self.kd_tree.query(coord_pairs, **kwargs)[1]` with `k=1`
(wind.py line 66). -/
def kd_query (t : KDTree) : QueryIn → QueryOut
  | QueryIn.single q => QueryOut.npScalar (nearest_flat_idx t.points q)
  | QueryIn.many qs => QueryOut.npArray (qs.map (nearest_flat_idx t.points))

/-- Model of the guard `type(idxs) is int` (wind.py line 67).  The comment in
the source claims that a `k=1` query "returns a single int", but
`cKDTree.query` returns NumPy integer scalars and arrays, never a Python
`int`, so the test is `False` for every query result. -/
def type_is_int : QueryOut → Bool :=
  fun _ => false

/-- Model of `GriddedField.k_nearest_points` (wind.py lines 58-70) for `k=1`
queries.  The tree over this field's own coordinates is used (the
shape-keyed cache interaction of lines 47 and 62-64 is modelled separately
by `GFState.knn_lookup` below; which tree is consulted is immaterial to the
arity behaviour modelled here).  For a sequence of query points the final
list comprehension converts each flat index to a (row, col) pair; for a bare
single point the normalization guard does not fire (see `type_is_int`) and
iterating the NumPy integer scalar raises `TypeError`. -/
def GriddedField.k_nearest_points (f : GriddedField) (q : QueryIn) :
    Except PyError (List (Nat × Nat)) :=
  let idxs := kd_query (build_kd_tree f) q
  let idxs2 :=
    if type_is_int idxs then
      match idxs with
      | QueryOut.npScalar i => QueryOut.npArray [i]
      | x => x
    else idxs
  match idxs2 with
  | QueryOut.npArray is =>
      Except.ok (is.map (fun i => (i / f.grid.shape.2, i % f.grid.shape.2)))
  | QueryOut.npScalar _ => Except.error PyError.typeError

/-- Model of `grid_idxs.transpose()` (wind.py line 83).  `k_nearest_points`
returns a Python `list` (line 70 is a list comprehension), and Python lists
define no attribute named `transpose`, so the call raises `AttributeError`
on every input; the `Empty` result type records that no value is ever
produced. -/
def list_transpose (_ : List (Nat × Nat)) : Except PyError Empty :=
  Except.error PyError.attributeError

/-- Model of `GriddedField.resample_to_grid` (wind.py lines 78-86): look up
the nearest source point of every target grid point, then attempt to
transpose the resulting index list.  The gather and field construction of
lines 84-85 are dead code because the transpose on line 83 always raises. -/
def GriddedField.resample_to_grid (f : GriddedField) (g : Grid) :
    Except PyError GriddedField :=
  match f.k_nearest_points (QueryIn.many g.pairsList) with
  | Except.error e => Except.error e
  | Except.ok grid_idxs =>
    match list_transpose grid_idxs with
    | Except.error e => Except.error e
    | Except.ok e => e.elim

/-- Rounding to the nearest integer (half away from zero for the positive
arguments that occur here), as applied by `scipy.ndimage.zoom` to each
output-axis length; computed on the rational's numerator and denominator so
that it evaluates by kernel reduction. -/
def np_round (q : ℚ) : ℤ :=
  Int.fdiv (2 * q.num + (q.den : ℤ)) (2 * (q.den : ℤ))

/-- The per-axis zoom factors of `GriddedField.zoom` (wind.py line 89):
`len(grid.lats) / self.shape[0]` and `len(grid.lons) / self.shape[1]`.
Note that `grid.lats` and `grid.lons` are the *raveled* coordinate arrays of
the target grid (wind.py lines 12-13), so each has one entry per grid point
(rows times cols), not one entry per axis sample. -/
def zoom_factors (f : GriddedField) (g : Grid) : ℚ × ℚ :=
  ((g.lats.length : ℚ) / (f.shape.1 : ℚ), (g.lons.length : ℚ) / (f.shape.2 : ℚ))

/-- Modelled from the spec: the zoom factors the specification describes,
namely the ratio of each axis's point count — target rows over source rows
and target cols over source cols.  Stated only for comparison with
`zoom_factors`, which is what the code computes. -/
def zoom_factors_spec (f : GriddedField) (g : Grid) : ℚ × ℚ :=
  ((g.shape.1 : ℚ) / (f.shape.1 : ℚ), (g.shape.2 : ℚ) / (f.shape.2 : ℚ))

/-- Output length of one axis under `scipy.ndimage.zoom`: the input length
times the zoom factor, rounded to the nearest integer. -/
def scipy_zoom_len (n : Nat) (factor : ℚ) : Nat :=
  (np_round ((n : ℚ) * factor)).toNat

/-- Placeholder for the spline-interpolated contents of
`scipy.ndimage.zoom`: only the output element count is modelled, because no
claim concerns the interpolated values themselves. -/
def scipy_zoom_values (values : List ℚ) (outLen : Nat) : List ℚ :=
  List.replicate outLen (values.headD 0)

/-- Model of `GriddedField.zoom` (wind.py lines 88-90): resize the raw value
array by `zoom_factors` and bind the result to the target grid via the
`GriddedField` constructor (which re-raises numpy's reshape `ValueError`
when the element counts disagree). -/
def GriddedField.zoom (f : GriddedField) (g : Grid) : Except PyError GriddedField :=
  let r := scipy_zoom_len f.shape.1 (zoom_factors f g).1
  let c := scipy_zoom_len f.shape.2 (zoom_factors f g).2
  GriddedField.make (scipy_zoom_values f.values (r * c)) g

/-- The process-wide `_KD_TREE_CACHE` dictionary (wind.py line 8), keyed by
grid shape.  A cons-list association map models the dictionary: insertion
prepends, so a later store for the same key shadows an earlier one, exactly
like dictionary assignment. -/
abbrev KDCache : Type :=
  List ((Nat × Nat) × KDTree)

/-- A `GriddedField` together with its mutable `kd_tree` slot.  The slot is
filled at construction time from the cache (wind.py line 47,
`self.kd_tree = _KD_TREE_CACHE.get(self.shape)`), not at query time. -/
structure GFState where
  gf : GriddedField
  kd_tree : Option KDTree
  deriving DecidableEq, Repr

/-- Model of `GriddedField.__init__`'s cache interaction (wind.py line 47):
the field captures whatever tree the cache holds for its shape at the moment
it is constructed. -/
def GriddedField.init_state (c : KDCache) (f : GriddedField) : GFState :=
  { gf := f, kd_tree := List.lookup f.grid.shape c }

/-- Result of one nearest-neighbour lookup: the tree used, the cache
afterwards, the field state afterwards, and whether a tree was (re)built. -/
structure LookupResult where
  tree : KDTree
  cache : KDCache
  fieldState : GFState
  rebuilt : Bool

/-- Model of the tree acquisition in `GriddedField.k_nearest_points`
(wind.py lines 62-64): if the field's `kd_tree` slot is `None`, build a tree
from this field's own coordinates and store it in the cache under the
field's shape (overwriting any entry already there); otherwise use the slot
as is and leave the cache untouched. -/
def GFState.knn_lookup (c : KDCache) (s : GFState) : LookupResult :=
  match s.kd_tree with
  | some t => { tree := t, cache := c, fieldState := s, rebuilt := false }
  | none =>
    let t := build_kd_tree s.gf
    { tree := t
      cache := (s.gf.grid.shape, t) :: c
      fieldState := { s with kd_tree := some t }
      rebuilt := true }

/-- A NumPy array object as held by the projector: an object identity
(`ref`) plus its contents.  Two variables alias the same array exactly when
their `ref`s coincide. -/
structure PyArray where
  ref : Nat
  data : List ℚ
  deriving DecidableEq, Repr

/-- A gridded field as consumed by `WindSkewProjector`: its grid and its
values array object. -/
structure PField where
  grid : Grid
  vals : PyArray
  deriving DecidableEq, Repr

/-- Shape of a projector input field, mirroring `field.shape`. -/
def PField.shape (f : PField) : Nat × Nat :=
  f.grid.shape

/-- The wind-advection projector state (wind.py lines 93-103): the three
input fields and the current `values` array object. -/
structure WindSkewProjector where
  target_field : PField
  u_wind_field : PField
  v_wind_field : PField
  values : PyArray
  deriving DecidableEq, Repr

/-- Model of `WindSkewProjector.__init__` (wind.py lines 94-103): validate
that the three shapes agree, raising `ValueError("All fields must have the
same shape")` otherwise, then start from the target's values array itself
(`self.values = self.target_field.values` on line 103 copies the reference,
not the array).  When the check fails Python discards the partially
initialised object, so the error branch carries no projector state. -/
def WindSkewProjector.init (t u v : PField) : Except PyError WindSkewProjector :=
  if t.shape = u.shape ∧ u.shape = v.shape then
    Except.ok { target_field := t, u_wind_field := u, v_wind_field := v, values := t.vals }
  else
    Except.error PyError.valueError

/-- Model of `self.target_field.get_coord_pairs()` (wind.py line 124).
`GriddedField` (wind.py lines 37-90) defines no method or attribute named
`get_coord_pairs` — the grid's coordinate pairs live in the `Grid.pairs`
property — so the attribute lookup raises `AttributeError`; the `Empty`
payload records that no value is ever produced. -/
def PField.get_coord_pairs (_ : PField) : Except PyError Empty :=
  Except.error PyError.attributeError

/-- Model of `WindSkewProjector._compute_new_indexes` (wind.py lines
105-149).  Evaluation stops at line 124 with the `AttributeError` from
`get_coord_pairs`; even if that call existed, the first loop iteration would
raise `UnboundLocalError` at line 141 (`new_lon_idx -= u_wind` reads the
local `new_lon_idx` before any assignment to it).  The per-cell displacement
arithmetic of lines 132-139 is modelled separately by `cell_displacement`.
The `Empty` result type records that every control path raises. -/
def WindSkewProjector.compute_new_indexes (p : WindSkewProjector) (_step_duration : ℝ) :
    Except PyError Empty :=
  match p.target_field.get_coord_pairs with
  | Except.error e => Except.error e
  | Except.ok e => e.elim

/-- Model of `WindSkewProjector.step` (wind.py lines 151-154): compute the
backward-traced coordinates, then interpolate and replace `self.values`.
The exception from `_compute_new_indexes` propagates before `self.values` is
reassigned, so the projector state is unchanged by a failed step; the
interpolation of line 153 is dead code. -/
def WindSkewProjector.step (p : WindSkewProjector) (duration : ℝ) :
    Except PyError (WindSkewProjector × PyArray) :=
  match p.compute_new_indexes duration with
  | Except.error e => Except.error e
  | Except.ok e => e.elim

/-- Metres per degree of arc (wind.py lines 121-122):
`2 * pi * 6378000 / 360`. -/
noncomputable def m_per_deg : ℝ :=
  2 * Real.pi * (6378 * 1000) / 360

/-- Model of `numpy.radians` (wind.py line 132). -/
noncomputable def np_radians (deg : ℝ) : ℝ :=
  deg * Real.pi / 180

/-- The per-cell displacement arithmetic of
`WindSkewProjector._compute_new_indexes` (wind.py lines 132-139), given the
cell's latitude, the U and V wind samples at the cell, and the step
duration; the result is (row displacement, column displacement) as consumed
on lines 141-142.  Exactly as in the source, `v_wind_ms` (line 134) is
computed and then never used: line 138 assigns `v_wind = u_wind_ms *
step_duration`, so the row displacement is derived from the U sample. -/
noncomputable def cell_displacement (lat u v step_duration : ℝ) : ℝ × ℝ :=
  let u_wind_ms := u / m_per_deg * Real.cos (np_radians lat)
  let v_wind_ms := v / m_per_deg
  let u_wind := u_wind_ms * step_duration
  let v_wind := u_wind_ms * step_duration
  (v_wind, u_wind)

/-- Modelled from the spec: the displacement the specification describes for
a cell — the V (north-south) component divided by `m_per_deg` with no
latitude scaling, the U (east-west) component divided by `m_per_deg` and
scaled by the cosine of the latitude, both times the duration.  Stated only
for comparison with `cell_displacement`, which is what the code computes. -/
noncomputable def cell_displacement_spec (lat u v step_duration : ℝ) : ℝ × ℝ :=
  (v / m_per_deg * step_duration,
   u / m_per_deg * Real.cos (np_radians lat) * step_duration)

/-- Example 1-point grid over the single coordinate (0, 0). -/
def gridA : Grid :=
  { lats := [0], lons := [0], shape := (1, 1) }

/-- Example 1-point grid over the single coordinate (9, 9): same shape as
`gridA`, different coordinates. -/
def gridB : Grid :=
  { lats := [9], lons := [9], shape := (1, 1) }

/-- Example field on `gridA`. -/
def gfA : GriddedField :=
  { grid := gridA, values := [1] }

/-- Example field on `gridB`. -/
def gfB : GriddedField :=
  { grid := gridB, values := [2] }

/-- Example 2-by-2 grid built from the axes [0, 1] and [0, 1]. -/
def grid22 : Grid :=
  Grid.from_unique_arrays [0, 1] [0, 1]

/-- Example 2-by-2 field. -/
def gf22 : GriddedField :=
  { grid := grid22, values := [1, 2, 3, 4] }

/-- Example 2-by-3 grid built from the axes [0, 1] and [0, 1, 2]. -/
def grid23 : Grid :=
  Grid.from_unique_arrays [0, 1] [0, 1, 2]

/-- Target values array object (reference 0) for the projector examples. -/
def arrT : PyArray :=
  { ref := 0, data := [5] }

/-- U-wind values array object (reference 1), zero wind. -/
def arrU : PyArray :=
  { ref := 1, data := [0] }

/-- V-wind values array object (reference 2), zero wind. -/
def arrV : PyArray :=
  { ref := 2, data := [0] }

/-- U-wind values array object (reference 3) with four entries, for the
shape-mismatch example. -/
def arrU4 : PyArray :=
  { ref := 3, data := [0, 0, 0, 0] }

/-- Example projector target field on the 1-point grid. -/
def pf_t : PField :=
  { grid := gridA, vals := arrT }

/-- Example zero U-wind field on the 1-point grid. -/
def pf_u0 : PField :=
  { grid := gridA, vals := arrU }

/-- Example zero V-wind field on the 1-point grid. -/
def pf_v0 : PField :=
  { grid := gridA, vals := arrV }

/-- Example U-wind field on the 2-by-2 grid: its shape disagrees with
`pf_t`'s. -/
def pf_u_bad : PField :=
  { grid := grid22, vals := arrU4 }

/-- First lookup of the shape-collision scenario: `gfA` is constructed
against the empty cache and queried, building and caching a tree over
`gfA`'s points. -/
def lookupA : LookupResult :=
  GFState.knn_lookup [] (GriddedField.init_state [] gfA)

/-- Second lookup of the shape-collision scenario: `gfB` was *also*
constructed against the empty cache (before the first lookup ran), so its
`kd_tree` slot is `None` and its lookup rebuilds from `gfB`'s own points
despite the cache already holding a tree for the shared shape key. -/
def lookupB : LookupResult :=
  GFState.knn_lookup lookupA.cache (GriddedField.init_state [] gfB)

theorem replicate_getElem? (x : ℚ) (n i : Nat) (h : i < n) :
    (List.replicate n x)[i]? = some x := by
  simp [List.getElem?_replicate, h]

theorem np_repeat_getElem? (xs : List ℚ) (n : Nat) :
    ∀ i, i < xs.length * n → (np_repeat xs n)[i]? = xs[i / n]? := by
  induction xs with
  | nil => intro i h; simp at h
  | cons x tl ih =>
    intro i h
    have hn : 0 < n := by
      rcases Nat.eq_zero_or_pos n with h0 | h0
      · rw [h0, Nat.mul_zero] at h; omega
      · exact h0
    have hrw : np_repeat (x :: tl) n = List.replicate n x ++ np_repeat tl n := by
      simp [np_repeat]
    by_cases hin : i < n
    · rw [hrw, List.getElem?_append_left (by simpa using hin), Nat.div_eq_of_lt hin,
        replicate_getElem? x n i hin]
      simp
    · push_neg at hin
      obtain ⟨j, rfl⟩ : ∃ j, i = n + j := ⟨i - n, by omega⟩
      rw [hrw, List.getElem?_append_right (by simpa using hin)]
      have hdiv : (n + j) / n = j / n + 1 := by
        rw [Nat.add_comm]
        exact Nat.add_div_right j hn
      rw [hdiv]
      simp only [List.length_replicate, Nat.add_sub_cancel_left, List.getElem?_cons_succ]
      apply ih
      have hexp : (x :: tl).length * n = tl.length * n + n := by
        rw [List.length_cons, Nat.succ_mul]
      omega

theorem np_tile_getElem? (xs : List ℚ) (n : Nat) :
    ∀ i, i < n * xs.length → (np_tile xs n)[i]? = xs[i % xs.length]? := by
  induction n with
  | zero => intro i h; simp at h
  | succ m ih =>
    intro i h
    have hrw : np_tile xs (m + 1) = xs ++ np_tile xs m := by
      simp [np_tile, List.replicate_succ]
    by_cases hin : i < xs.length
    · rw [hrw, List.getElem?_append_left hin, Nat.mod_eq_of_lt hin]
    · push_neg at hin
      obtain ⟨j, rfl⟩ : ∃ j, i = xs.length + j := ⟨i - xs.length, by omega⟩
      rw [hrw, List.getElem?_append_right hin, Nat.add_sub_cancel_left, Nat.add_mod_left]
      apply ih
      have hexp : (m + 1) * xs.length = m * xs.length + xs.length := Nat.succ_mul m xs.length
      omega

/-- C1: the claim states that with zero wind, repeated `step` calls leave
the current values array equal to the target field's values.  In the code no
`step` call ever completes: every call raises `AttributeError` at wind.py
line 124, because `GriddedField` defines no `get_coord_pairs` method (and
the loop body would in any case read the unbound local `new_lon_idx` at line
141), so the values are never advected — or even returned — by a step. -/
theorem c1_step_always_raises_attribute_error (p : WindSkewProjector) (d : ℝ) :
    p.step d = Except.error PyError.attributeError :=
  rfl

/-- C2: the claim states that the row (north-south) displacement of a cell
is `v[r,c] / m_per_deg * duration`, derived from the V field.  In the code
(wind.py line 138, `v_wind = u_wind_ms * step_duration`) the row
displacement is derived from the U sample: at a cell with latitude 0, U
sample `m_per_deg` (metres/second), V sample 0 and duration 1, the code's
row displacement is 1 while the claimed formula gives 0. -/
theorem c2_row_displacement_uses_u_sample :
    (cell_displacement 0 m_per_deg 0 1).1 = 1 ∧
    (cell_displacement_spec 0 m_per_deg 0 1).1 = 0 := by
  have hm : m_per_deg ≠ 0 := by
    unfold m_per_deg
    positivity
  constructor
  · show m_per_deg / m_per_deg * Real.cos (np_radians 0) * 1 = 1
    rw [np_radians, zero_mul, zero_div, Real.cos_zero, div_self hm]
    ring
  · show (0 : ℝ) / m_per_deg * 1 = 0
    rw [zero_div, zero_mul]

/-- C3: the claim states that resampling a field onto its own grid returns a
field with identical values.  In the code `resample_to_grid` never returns
at all: for every field and target grid it raises `AttributeError` at
wind.py line 83, because `k_nearest_points` returns a Python list and lists
have no `transpose` attribute. -/
theorem c3_resample_always_raises_attribute_error (f : GriddedField) (g : Grid) :
    f.resample_to_grid g = Except.error PyError.attributeError :=
  rfl

/-- C5: a grid built by `from_unique_arrays` has shape
(len(lats), len(lons)) and its i-th point is
(lats[i / len(lons)], lons[i % len(lons)]): the row-major outer product
with latitude varying slowest. -/
theorem c5_from_unique_arrays_outer_product (lats lons : List ℚ) (i : Nat)
    (h : i < lats.length * lons.length) :
    (Grid.from_unique_arrays lats lons).shape = (lats.length, lons.length) ∧
    (Grid.from_unique_arrays lats lons).lats[i]? = lats[i / lons.length]? ∧
    (Grid.from_unique_arrays lats lons).lons[i]? = lons[i % lons.length]? :=
  ⟨rfl, np_repeat_getElem? lats lons.length i h, np_tile_getElem? lons lats.length i h⟩

/-- Witness for C5 at lats = [10, 20], lons = [1, 2, 3], flat index 4:
the point there is (lats[1], lons[1]) = (20, 2). -/
theorem c5_witness :
    4 < List.length [(10 : ℚ), 20] * List.length [(1 : ℚ), 2, 3] ∧
    ((Grid.from_unique_arrays [10, 20] [1, 2, 3]).shape =
        (List.length [(10 : ℚ), 20], List.length [(1 : ℚ), 2, 3]) ∧
      (Grid.from_unique_arrays [10, 20] [1, 2, 3]).lats[4]? =
        [(10 : ℚ), 20][4 / List.length [(1 : ℚ), 2, 3]]? ∧
      (Grid.from_unique_arrays [10, 20] [1, 2, 3]).lons[4]? =
        [(1 : ℚ), 2, 3][4 % List.length [(1 : ℚ), 2, 3]]?) :=
  ⟨by decide, c5_from_unique_arrays_outer_product [10, 20] [1, 2, 3] 4 (by decide)⟩

/-- C9: the claim states that a `k=1` query returns a one-element-per-point
sequence of (row, col) pairs for every accepted input shape, single point or
sequence.  For a sequence of query points this holds, but for a bare single
point scipy returns a NumPy integer scalar, the `type(idxs) is int` guard of
wind.py line 67 never fires, and the comprehension of line 70 raises
`TypeError` trying to iterate the scalar. -/
theorem c9_single_point_query_raises_type_error :
    gfA.k_nearest_points (QueryIn.many [(0, 0)]) = Except.ok [(0, 0)] ∧
    gfA.k_nearest_points (QueryIn.single (0, 0)) = Except.error PyError.typeError :=
  ⟨rfl, rfl⟩

/-- C10: at construction the projector's `values` is the very array object
held by the target field (no copy is made), and — against the claim's
second half — it never becomes a fresh distinct array, because every `step`
call raises `AttributeError` (wind.py line 124) before `self.values` is
reassigned. -/
theorem c10_values_alias_never_replaced (t u v : PField)
    (h : t.shape = u.shape ∧ u.shape = v.shape) :
    ∃ p, WindSkewProjector.init t u v = Except.ok p ∧ p.values = t.vals ∧
      ∀ d : ℝ, p.step d = Except.error PyError.attributeError := by
  refine ⟨{ target_field := t, u_wind_field := u, v_wind_field := v, values := t.vals },
    ?_, rfl, fun d => rfl⟩
  unfold WindSkewProjector.init
  rw [if_pos h]

/-- Witness for C10 on the concrete 1-point zero-wind projector. -/
theorem c10_witness :
    (pf_t.shape = pf_u0.shape ∧ pf_u0.shape = pf_v0.shape) ∧
    (∃ p, WindSkewProjector.init pf_t pf_u0 pf_v0 = Except.ok p ∧ p.values = pf_t.vals ∧
      ∀ d : ℝ, p.step d = Except.error PyError.attributeError) :=
  ⟨⟨rfl, rfl⟩, c10_values_alias_never_replaced pf_t pf_u0 pf_v0 ⟨rfl, rfl⟩⟩

/-- C7 counterexample: `from_ranges` with a zero latitude step does not
raise `InvalidGridError` — no such class exists in the source; the zero step
reaches `numpy.arange`, which raises `ZeroDivisionError`. -/
theorem c7_counterexample :
    (Grid.from_ranges 0 1 0 0 1 1 = Except.error PyError.invalidGridError) = False := by
  have h1 : Grid.from_ranges 0 1 0 0 1 1 = Except.error PyError.zeroDivisionError := by
    unfold Grid.from_ranges numpy_arange
    simp
  rw [h1]
  simp

/-- C7 amended: for every range specification in which the latitude or the
longitude step is zero, `from_ranges` raises `ZeroDivisionError` (propagated
from `numpy.arange`; the code performs no validation of its own and defines
no `InvalidGridError`), and no grid is produced. -/
theorem c7_amended_zero_step_raises_zero_division (a b s c d t : ℚ)
    (h : s = 0 ∨ t = 0) :
    Grid.from_ranges a b s c d t = Except.error PyError.zeroDivisionError := by
  unfold Grid.from_ranges numpy_arange
  by_cases hs : s = 0
  · simp [hs]
  · rcases h with h | h
    · exact absurd h hs
    · simp [hs, h]

/-- Witness for the amended C7 at `from_ranges(0, 1, 0, 0, 1, 1)`. -/
theorem c7_witness :
    ((0 : ℚ) = 0 ∨ (1 : ℚ) = 0) ∧
    Grid.from_ranges 0 1 0 0 1 1 = Except.error PyError.zeroDivisionError :=
  ⟨Or.inl rfl, c7_amended_zero_step_raises_zero_division 0 1 0 0 1 1 (Or.inl rfl)⟩

/-- C8 counterexample: constructing a projector from fields of mismatched
shapes does not raise `ShapeMismatchError` — no such class exists in the
source; wind.py line 101 raises the built-in `ValueError`. -/
theorem c8_counterexample :
    (WindSkewProjector.init pf_t pf_u_bad pf_v0 = Except.error PyError.shapeMismatchError) =
      False := by
  have h1 : WindSkewProjector.init pf_t pf_u_bad pf_v0 = Except.error PyError.valueError := by
    unfold WindSkewProjector.init
    rw [if_neg (by decide)]
  rw [h1]
  simp

/-- C8 amended: for every triple of target, u and v fields whose shapes are
not all equal, constructing the projector raises the built-in `ValueError`
(wind.py line 101), and the construction is atomic — the error branch
carries no projector state, in particular no current-values array. -/
theorem c8_amended_mismatch_raises_value_error (t u v : PField)
    (h : ¬(t.shape = u.shape ∧ u.shape = v.shape)) :
    WindSkewProjector.init t u v = Except.error PyError.valueError := by
  unfold WindSkewProjector.init
  rw [if_neg h]

/-- Witness for the amended C8: a 1-point target with a 4-point u field. -/
theorem c8_witness :
    ¬(pf_t.shape = pf_u_bad.shape ∧ pf_u_bad.shape = pf_v0.shape) ∧
    WindSkewProjector.init pf_t pf_u_bad pf_v0 = Except.error PyError.valueError :=
  ⟨by decide, c8_amended_mismatch_raises_value_error pf_t pf_u_bad pf_v0 (by decide)⟩

/-- C4: the claim states that the zoom scale factors are the per-axis point
count ratios (target rows / source rows, target cols / source cols).  In the
code (wind.py line 89) both factors divide the length of the target grid's
*raveled* coordinate arrays — one entry per grid point, rows times cols —
by the source shape.  For the 2-by-2 field zoomed to the 2-by-3 grid the
code's factors are (6/2, 6/2) = (3, 3), not the claimed (2/2, 3/2); the
resulting 6-by-6 zoomed array then cannot be reshaped to the target shape,
so the `GriddedField` constructor raises `ValueError`. -/
theorem c4_zoom_factors_use_raveled_point_count :
    zoom_factors gf22 grid23 = (3, 3) ∧
    zoom_factors_spec gf22 grid23 = (1, 3 / 2) ∧
    GriddedField.zoom gf22 grid23 = Except.error PyError.valueError := by
  have hlat : grid23.lats.length = 6 := by decide
  have hlon : grid23.lons.length = 6 := by decide
  have hsh : gf22.shape = (2, 2) := by decide
  have hsh23 : grid23.shape = (2, 3) := by decide
  have h1 : zoom_factors gf22 grid23 = (3, 3) := by
    unfold zoom_factors
    rw [hlat, hlon, hsh]
    norm_num
  have h2 : zoom_factors_spec gf22 grid23 = (1, 3 / 2) := by
    unfold zoom_factors_spec
    rw [hsh23, hsh]
    norm_num
  have hzl : scipy_zoom_len 2 (3 : ℚ) = 6 := by
    unfold scipy_zoom_len np_round
    have h23 : ((2 : Nat) : ℚ) * (3 : ℚ) = (6 : ℚ) := by norm_num
    rw [h23, Rat.num_ofNat, Rat.den_ofNat]
    decide
  refine ⟨h1, h2, ?_⟩
  show GriddedField.make
      (scipy_zoom_values gf22.values
        (scipy_zoom_len gf22.shape.1 (zoom_factors gf22 grid23).1 *
          scipy_zoom_len gf22.shape.2 (zoom_factors gf22 grid23).2)) grid23 =
    Except.error PyError.valueError
  rw [h1, hsh]
  show GriddedField.make
      (scipy_zoom_values gf22.values (scipy_zoom_len 2 (3 : ℚ) * scipy_zoom_len 2 (3 : ℚ)))
      grid23 = Except.error PyError.valueError
  rw [hzl]
  unfold GriddedField.make scipy_zoom_values
  rw [if_neg (by decide)]

/-- C6 counterexample: two lookups whose grids share the cache key (1, 1) in
which the second lookup nevertheless rebuilds — and returns a different tree
than the first — because the second field was constructed before the first
lookup stored anything, so its `kd_tree` slot (captured at construction,
wind.py line 47) is still `None` at query time. -/
theorem c6_counterexample :
    lookupB.rebuilt = true ∧ (lookupB.tree = lookupA.tree) = False := by
  refine ⟨rfl, ?_⟩
  rw [show lookupB.tree = { points := [((9 : ℚ), (9 : ℚ))] } from rfl,
    show lookupA.tree = { points := [((0 : ℚ), (0 : ℚ))] } from rfl]
  simp

/-- C6 amended: when the two lookups happen in construction order — the
second field is constructed against the cache as it stands after the first
field's lookup — a lookup whose grid has the same shape key returns the very
tree of the first lookup and does not rebuild, even when the two grids have
different coordinate arrays (the key is the shape alone). -/
theorem c6_amended_cached_key_shares_tree (c0 : KDCache) (f1 f2 : GriddedField)
    (h : f2.grid.shape = f1.grid.shape) :
    (GFState.knn_lookup (GFState.knn_lookup c0 (GriddedField.init_state c0 f1)).cache
        (GriddedField.init_state
          (GFState.knn_lookup c0 (GriddedField.init_state c0 f1)).cache f2)).tree =
      (GFState.knn_lookup c0 (GriddedField.init_state c0 f1)).tree ∧
    (GFState.knn_lookup (GFState.knn_lookup c0 (GriddedField.init_state c0 f1)).cache
        (GriddedField.init_state
          (GFState.knn_lookup c0 (GriddedField.init_state c0 f1)).cache f2)).rebuilt =
      false := by
  unfold GriddedField.init_state GFState.knn_lookup
  rw [h]
  rcases hc : List.lookup f1.grid.shape c0 with _ | t
  · simp [hc, List.lookup]
  · simp [hc]

/-- Witness for the amended C6: `gfB` (coordinates (9, 9)) constructed after
`gfA`'s lookup reuses the tree built over `gfA`'s coordinates (0, 0), since
the two grids share the shape key (1, 1). -/
theorem c6_witness :
    gfB.grid.shape = gfA.grid.shape ∧
    ((GFState.knn_lookup (GFState.knn_lookup [] (GriddedField.init_state [] gfA)).cache
        (GriddedField.init_state
          (GFState.knn_lookup [] (GriddedField.init_state [] gfA)).cache gfB)).tree =
      (GFState.knn_lookup [] (GriddedField.init_state [] gfA)).tree ∧
     (GFState.knn_lookup (GFState.knn_lookup [] (GriddedField.init_state [] gfA)).cache
        (GriddedField.init_state
          (GFState.knn_lookup [] (GriddedField.init_state [] gfA)).cache gfB)).rebuilt =
      false) :=
  ⟨rfl, c6_amended_cached_key_shares_tree [] gfA gfB rfl⟩
